import Mathlib

/-!
Shallow embedding of the credential/session core of the
Flask_MySQL_Dockerized_Login_System repository.

The repository has two source variants:
- src/demo/app.py  : configuration from environment variables, retrying
  connection manager, login by email with a required-fields check,
  try/except/finally resource handling on every store operation.
- src/demo/app1.py : hardcoded configuration, single-shot connection that
  raises on failure, login by username, partial error handling.

Pure request handlers are embedded as Lean functions from
(form, session, store behaviour) to an explicit outcome record that carries
the response, the resulting session, and resource-usage observations
(whether the store was contacted, whether a connection was acquired and
released).  The external MySQL store is modelled by a behaviour parameter:
unavailable (connection cannot be established), faulty (connection
succeeds, the query raises a database Error), or healthy (queries answered
from an explicit list of user rows).
-/

/-- Modelled from the spec: the credential hasher is werkzeug's
`generate_password_hash` / `check_password_hash` (pbkdf2:sha256), library
code not present under src/.  Per spec section 4.1 it is a salted, iterated
key-derivation scheme: the KDF digest is modelled as an idealized
collision-free function of the salt and the plaintext. -/
def kdf (salt : Nat) (plaintext : String) : Nat × String :=
  (salt, plaintext)

/-- Opaque password verifier: the salt together with the KDF digest, as
stored in the users.password column. -/
structure Verifier where
  salt : Nat
  digest : Nat × String
deriving DecidableEq

/-- Modelled from the spec: werkzeug `generate_password_hash` with a fresh
salt chosen per call (the salt is an explicit argument here, so that two
calls may legitimately receive different salts). -/
def generate_password_hash (salt : Nat) (plaintext : String) : Verifier :=
  ⟨salt, kdf salt plaintext⟩

/-- Modelled from the spec: werkzeug `check_password_hash` recomputes the
KDF at the verifier's salt and compares digests. -/
def check_password_hash (v : Verifier) (plaintext : String) : Bool :=
  decide (v.digest = kdf v.salt plaintext)

/-- User row of the users table (app1.py init_db, lines 64-72):
id PK auto-increment, username unique, email unique, password verifier,
created_at timestamp. -/
structure User where
  id : Nat
  username : String
  email : String
  password : Verifier
  created_at : Nat
deriving DecidableEq

/-- Client session: the keys this core ever sets (user_id, username,
email); absence of user_id is the Anonymous state. -/
structure Session where
  user_id : Option Nat
  username : Option String
  email : Option String
deriving DecidableEq

/-- Projection returned by the dashboard query
SELECT id, username, email, created_at FROM users WHERE id = %s
(app.py line 245, app1.py line 222): no password column. -/
structure UserProjection where
  id : Nat
  username : String
  email : String
  created_at : Nat
deriving DecidableEq

/-- Data handed to the templating collaborator with a rendered view. -/
inductive ViewData
  | noData
  | dashboardData (user : Option UserProjection)
  | homeData (username : Option String)
deriving DecidableEq

/-- Response returned to the dispatch collaborator: a rendered template
(with at most one flashed message and its category), a redirect, a 400
from a missing form key (KeyError on request.form), or a 500 from an
uncaught exception. -/
inductive Response
  | render (template : String) (flash : Option (String × String)) (data : ViewData)
  | redirect (target : String) (flash : Option (String × String))
  | badRequest
  | serverError
deriving DecidableEq

/-- Behaviour of the external MySQL store during one request:
unavailable (no connection can be established), faulty (connection
established, executing the query raises a database Error), or healthy
with the given table contents. -/
inductive DbBehavior
  | unavailable
  | faulty
  | healthy (users : List User)
deriving DecidableEq

/-- Observable outcome of one request: response, resulting session, and
resource observations (storeContacted: get_db_connection was invoked;
acquired: a connection was obtained; released: every obtained
connection/cursor was closed by handler exit). -/
structure Outcome where
  response : Response
  session : Session
  storeContacted : Bool
  acquired : Bool
  released : Bool
deriving DecidableEq

/-- Login form fields as delivered by request.form (absent key = none). -/
structure LoginForm where
  email : Option String
  username : Option String
  password : Option String
deriving DecidableEq

/-- Registration form fields as delivered by request.form. -/
structure RegisterForm where
  username : Option String
  email : Option String
  password : Option String
deriving DecidableEq

/-- Lookup SELECT * FROM users WHERE email = %s, first row
(app.py lines 177-179). -/
def find_by_email (users : List User) (email : String) : Option User :=
  users.find? (fun u => u.email == email)

/-- Lookup SELECT * FROM users WHERE username = %s, first row
(app1.py lines 163-167). -/
def find_by_username (users : List User) (username : String) : Option User :=
  users.find? (fun u => u.username == username)

/-- Lookup SELECT ... FROM users WHERE id = %s, first row
(app.py line 245-249, app1.py lines 222-224). -/
def find_by_id (users : List User) (id : Nat) : Option User :=
  users.find? (fun u => u.id == id)

/-- Outcome of one connection attempt in app.py get_db_connection:
connect raises a mysql Error, connect succeeds but is_connected() is
false, or the attempt yields a usable connection. -/
inductive AttemptResult
  | raiseErr
  | notConnected
  | ok
deriving DecidableEq

/-- Result of app.py get_db_connection together with the observations the
spec's Connection Manager contract mentions: whether a handle was
returned, how many connection attempts were made, and how many inter-
attempt delays (time.sleep calls) were observed. -/
structure AcquireResult where
  handle : Bool
  attempts : Nat
  delays : Nat
deriving DecidableEq

/-- Loop body of app.py get_db_connection (lines 51-74): fuel counts the
remaining iterations of `for attempt in range(max_retries)`, attempt is
the current 0-based index, att/del accumulate attempts made and sleeps
observed.  On a raised Error the code sleeps and retries unless this was
the last attempt (attempt = max_retries - 1), in which case it returns
None; if connect succeeds but is_connected() is false the loop just
advances; falling off the loop returns None. -/
def acquireGo (oracle : Nat → AttemptResult) (max_retries : Nat) :
    Nat → Nat → Nat → Nat → AcquireResult
  | 0, _, att, del => ⟨false, att, del⟩
  | fuel + 1, attempt, att, del =>
    match oracle attempt with
    | .ok => ⟨true, att + 1, del⟩
    | .notConnected => acquireGo oracle max_retries fuel (attempt + 1) (att + 1) del
    | .raiseErr =>
      if attempt < max_retries - 1 then
        acquireGo oracle max_retries fuel (attempt + 1) (att + 1) (del + 1)
      else ⟨false, att + 1, del⟩

/-- app.py get_db_connection (lines 39-74): retrying connection
acquisition; the oracle gives the store's reaction to each 0-based
attempt. -/
def get_db_connection (oracle : Nat → AttemptResult) (max_retries : Nat) :
    AcquireResult :=
  acquireGo oracle max_retries max_retries 0 0 0

/-- POST branch of app.py login (lines 160-200): reads email/password via
request.form.get, rejects a missing or empty field before any store
contact, otherwise connects (flashing a failure message when
get_db_connection returned None), looks the user up by email and verifies
the password; on success binds user_id/username/email in the session and
redirects home, otherwise flashes the invalid-credentials message; a
database Error is caught and flashed, and the finally block always closes
cursor and connection. -/
def app_login (form : LoginForm) (sess : Session) (db : DbBehavior) : Outcome :=
  match form.email, form.password with
  | some e, some p =>
    if e = "" ∨ p = "" then
      ⟨.render "login.html" (some ("Email and password are required!", "danger")) .noData,
        sess, false, false, true⟩
    else
      match db with
      | .unavailable =>
        ⟨.render "login.html" (some ("Database connection failed. Please try again later.", "danger")) .noData,
          sess, true, false, true⟩
      | .faulty =>
        ⟨.render "login.html" (some ("An error occurred. Please try again.", "danger")) .noData,
          sess, true, true, true⟩
      | .healthy users =>
        match find_by_email users e with
        | some u =>
          if check_password_hash u.password p then
            ⟨.redirect "index" (some ("Login successful!", "success")),
              ⟨some u.id, some u.username, some u.email⟩, true, true, true⟩
          else
            ⟨.render "login.html" (some ("Invalid email or password!", "danger")) .noData,
              sess, true, true, true⟩
        | none =>
          ⟨.render "login.html" (some ("Invalid email or password!", "danger")) .noData,
            sess, true, true, true⟩
  | _, _ =>
    ⟨.render "login.html" (some ("Email and password are required!", "danger")) .noData,
      sess, false, false, true⟩

/-- POST branch of app1.py login (lines 149-191): reads username/password
via request.form indexing (a missing key raises KeyError, a 400), then
connects (get_db_connection raises on failure: uncaught, a 500), runs the
username lookup with no try block (a raised database Error propagates and
the close calls on lines 170-171 are skipped), closes cursor and
connection, then verifies; on success binds user_id/username (not email)
and redirects home, otherwise flashes the invalid-credentials message. -/
def app1_login (form : LoginForm) (sess : Session) (db : DbBehavior) : Outcome :=
  match form.username, form.password with
  | some n, some p =>
    match db with
    | .unavailable => ⟨.serverError, sess, true, false, true⟩
    | .faulty => ⟨.serverError, sess, true, true, false⟩
    | .healthy users =>
      match find_by_username users n with
      | some u =>
        if check_password_hash u.password p then
          ⟨.redirect "index" (some ("Login successful!", "success")),
            ⟨some u.id, some u.username, sess.email⟩, true, true, true⟩
        else
          ⟨.render "login.html" (some ("Invalid username or password!", "danger")) .noData,
            sess, true, true, true⟩
      | none =>
        ⟨.render "login.html" (some ("Invalid username or password!", "danger")) .noData,
          sess, true, true, true⟩
  | _, _ => ⟨.badRequest, sess, false, false, true⟩

/-- Whether inserting (username, email) violates the users table's UNIQUE
constraints (app1.py init_db lines 67-68): some existing row already has
this username or this email. -/
def insertDuplicate (users : List User) (username email : String) : Bool :=
  users.any (fun u => u.username == username || u.email == email)

/-- POST branch of app.py register (lines 100-156): reads the form by
indexing (missing key: 400), hashes the password, connects (None flashes
a retry-later message), inserts; an IntegrityError flashes the duplicate
message, any other database Error is logged and flashes a try-again
message, the finally block always closes cursor and connection; on
success it redirects to login.  The session is never touched. -/
def app_register (form : RegisterForm) (sess : Session) (db : DbBehavior) : Outcome :=
  match form.username, form.email, form.password with
  | some n, some e, some _p =>
    match db with
    | .unavailable =>
      ⟨.render "register.html" (some ("Database connection failed. Please try again later.", "danger")) .noData,
        sess, true, false, true⟩
    | .faulty =>
      ⟨.render "register.html" (some ("An error occurred. Please try again.", "danger")) .noData,
        sess, true, true, true⟩
    | .healthy users =>
      if insertDuplicate users n e then
        ⟨.render "register.html" (some ("Username or email already exists!", "danger")) .noData,
          sess, true, true, true⟩
      else
        ⟨.redirect "login" (some ("Registration successful! Please login.", "success")),
          sess, true, true, true⟩
  | _, _, _ => ⟨.badRequest, sess, false, false, true⟩

/-- POST branch of app1.py register (lines 99-144): reads the form by
indexing (missing key: 400), hashes, connects (get_db_connection raises
on failure: uncaught, a 500, nothing acquired), inserts; only
IntegrityError is caught (duplicate flash), any other database Error
propagates after the finally block closes cursor and connection; on
success it redirects to login.  The session is never touched. -/
def app1_register (form : RegisterForm) (sess : Session) (db : DbBehavior) : Outcome :=
  match form.username, form.email, form.password with
  | some n, some e, some _p =>
    match db with
    | .unavailable => ⟨.serverError, sess, true, false, true⟩
    | .faulty => ⟨.serverError, sess, true, true, true⟩
    | .healthy users =>
      if insertDuplicate users n e then
        ⟨.render "register.html" (some ("Username or email already exists!", "danger")) .noData,
          sess, true, true, true⟩
      else
        ⟨.redirect "login" (some ("Registration successful! Please login.", "success")),
          sess, true, true, true⟩
  | _, _, _ => ⟨.badRequest, sess, false, false, true⟩

/-- app.py dashboard (lines 222-264): with no user_id in the session it
flashes a warning and redirects to login without touching the store; an
unavailable store flashes and redirects home; a database Error is caught,
flashed, and redirects home with the finally block closing resources; on
a healthy store it renders the projection of the id/username/email/
created_at query (None when the id matches no row). -/
def app_dashboard (sess : Session) (db : DbBehavior) : Outcome :=
  match sess.user_id with
  | none =>
    ⟨.redirect "login" (some ("Please login to access dashboard.", "warning")),
      sess, false, false, true⟩
  | some uid =>
    match db with
    | .unavailable =>
      ⟨.redirect "index" (some ("Database connection failed.", "danger")),
        sess, true, false, true⟩
    | .faulty =>
      ⟨.redirect "index" (some ("An error occurred. Please try again.", "danger")),
        sess, true, true, true⟩
    | .healthy users =>
      ⟨.render "dashboard.html" none
          (.dashboardData ((find_by_id users uid).map
            (fun u => ⟨u.id, u.username, u.email, u.created_at⟩))),
        sess, true, true, true⟩

/-- app1.py dashboard (lines 210-231): with no user_id in the session it
flashes a warning and redirects to login without touching the store;
get_db_connection raises on an unavailable store (uncaught, a 500); the
query runs with no try block, so a raised database Error propagates and
the close calls on lines 227-228 are skipped; on a healthy store it
renders the same projection query as app.py. -/
def app1_dashboard (sess : Session) (db : DbBehavior) : Outcome :=
  match sess.user_id with
  | none =>
    ⟨.redirect "login" (some ("Please login to access dashboard.", "warning")),
      sess, false, false, true⟩
  | some uid =>
    match db with
    | .unavailable => ⟨.serverError, sess, true, false, true⟩
    | .faulty => ⟨.serverError, sess, true, true, false⟩
    | .healthy users =>
      ⟨.render "dashboard.html" none
          (.dashboardData ((find_by_id users uid).map
            (fun u => ⟨u.id, u.username, u.email, u.created_at⟩))),
        sess, true, true, true⟩

/-- app.py logout (lines 205-218): pops user_id, username and email from
the session, flashes, redirects to login; never contacts the store. -/
def app_logout (sess : Session) : Outcome :=
  ⟨.redirect "login" (some ("You have been logged out.", "info")),
    ⟨none, none, none⟩, false, false, true⟩

/-- app1.py logout (lines 196-206): pops user_id and username (email is
never set by this variant), flashes, redirects to login. -/
def app1_logout (sess : Session) : Outcome :=
  ⟨.redirect "login" (some ("You have been logged out.", "info")),
    ⟨none, none, sess.email⟩, false, false, true⟩

/-- app.py index (lines 78-89): renders home with the session username
when a user_id is bound, otherwise redirects to login. -/
def app_index (sess : Session) : Outcome :=
  match sess.user_id with
  | some _ => ⟨.render "home.html" none (.homeData sess.username), sess, false, false, true⟩
  | none => ⟨.redirect "login" none, sess, false, false, true⟩

/-- app1.py index (lines 86-92): identical logic to app.py index. -/
def app1_index (sess : Session) : Outcome :=
  match sess.user_id with
  | some _ => ⟨.render "home.html" none (.homeData sess.username), sess, false, false, true⟩
  | none => ⟨.redirect "login" none, sess, false, false, true⟩

/-- SQL statement as issued to the store driver: the statement text
handed to cursor.execute and the parameter tuple substituted by the
driver. -/
structure SqlStatement where
  text : String
  params : List String
deriving DecidableEq

/-- Store configuration dictionary (db_config in app1.py lines 26-31,
DB_CONFIG in app.py lines 29-35; port omitted as app1 has none). -/
structure DbConfig where
  host : String
  user : String
  password : String
  database : String
deriving DecidableEq

/-- INSERT issued by app.py register (lines 124-128). -/
def app_register_stmt (username email hashed : String) : SqlStatement :=
  ⟨"INSERT INTO users (username, email, password) VALUES (%s, %s, %s)",
    [username, email, hashed]⟩

/-- SELECT issued by app.py login (lines 177-178). -/
def app_login_stmt (email : String) : SqlStatement :=
  ⟨"SELECT * FROM users WHERE email = %s", [email]⟩

/-- SELECT issued by app.py dashboard (lines 245-246). -/
def app_dashboard_stmt (uid : String) : SqlStatement :=
  ⟨"SELECT id, username, email, created_at FROM users WHERE id = %s", [uid]⟩

/-- INSERT issued by app1.py register (lines 118-121). -/
def app1_register_stmt (username email hashed : String) : SqlStatement :=
  ⟨"INSERT INTO users (username, email, password) VALUES (%s, %s, %s)",
    [username, email, hashed]⟩

/-- SELECT issued by app1.py login (line 163). -/
def app1_login_stmt (username : String) : SqlStatement :=
  ⟨"SELECT * FROM users WHERE username = %s", [username]⟩

/-- SELECT issued by app1.py dashboard (lines 222-223). -/
def app1_dashboard_stmt (uid : String) : SqlStatement :=
  ⟨"SELECT id, username, email, created_at FROM users WHERE id = %s", [uid]⟩

/-- Statements issued by app1.py init_db (lines 53-72), in order: the
first two build their text with Python f-strings interpolating the
configured database name; the third is a constant CREATE TABLE. -/
def init_db_stmts (cfg : DbConfig) : List SqlStatement :=
  [⟨"CREATE DATABASE IF NOT EXISTS " ++ cfg.database, []⟩,
   ⟨"USE " ++ cfg.database, []⟩,
   ⟨"CREATE TABLE IF NOT EXISTS users ( id INT AUTO_INCREMENT PRIMARY KEY, username VARCHAR(80) UNIQUE NOT NULL, email VARCHAR(120) UNIQUE NOT NULL, password VARCHAR(255) NOT NULL, created_at TIMESTAMP DEFAULT CURRENT_TIMESTAMP )",
     []⟩]

/-- Replace the stored password verifier of a user row, leaving every
displayed column unchanged; used to state that dashboard responses do not
depend on any stored verifier. -/
def setPassword (v : Verifier) (u : User) : User :=
  ⟨u.id, u.username, u.email, v, u.created_at⟩

theorem check_generate (salt : Nat) (p : String) :
    check_password_hash (generate_password_hash salt p) p = true := by
  simp [check_password_hash, generate_password_hash]

theorem check_generate_ne (salt : Nat) (p p2 : String) (h : p ≠ p2) :
    check_password_hash (generate_password_hash salt p2) p = false := by
  simp [check_password_hash, generate_password_hash, kdf]
  exact fun hpp => absurd hpp.symm h

/-- C4: verify(p, hash(p)) is true for every plaintext and every salt;
verify(p, hash(p2)) is false whenever p differs from p2; and hashing the
same plaintext under two different salts yields different verifier bytes
that both verify against the plaintext. -/
theorem hasher_contract :
    (∀ (salt : Nat) (p : String),
      check_password_hash (generate_password_hash salt p) p = true) ∧
    (∀ (salt : Nat) (p p2 : String), p ≠ p2 →
      check_password_hash (generate_password_hash salt p2) p = false) ∧
    (∀ (s1 s2 : Nat) (p : String), s1 ≠ s2 →
      generate_password_hash s1 p ≠ generate_password_hash s2 p ∧
      check_password_hash (generate_password_hash s1 p) p = true ∧
      check_password_hash (generate_password_hash s2 p) p = true) := by
  refine ⟨check_generate, check_generate_ne, ?_⟩
  intro s1 s2 p hs
  refine ⟨?_, check_generate s1 p, check_generate s2 p⟩
  intro hgen
  exact hs (congrArg Verifier.salt hgen)

theorem hasher_contract_witness :
    (("pw1" : String) ≠ "pw2" ∧ (0 : Nat) ≠ 1) ∧
    check_password_hash (generate_password_hash 0 "pw2") "pw1" = false ∧
    generate_password_hash 0 "pw1" ≠ generate_password_hash 1 "pw1" :=
  ⟨⟨by decide, by decide⟩,
    hasher_contract.2.1 0 "pw1" "pw2" (by decide),
    (hasher_contract.2.2 0 1 "pw1" (by decide)).1⟩

/-- C10: in the environment-configured variant (app.py), a login
submission with a missing or empty email or password field is answered
with the required-fields flash and the login form, before any store
connection is attempted: the outcome records that the store was never
contacted and the session is returned unchanged, whatever the store
behaviour would have been. -/
theorem app_login_requires_fields (e u p : Option String) (sess : Session)
    (db : DbBehavior)
    (h : e = none ∨ e = some "" ∨ p = none ∨ p = some "") :
    app_login ⟨e, u, p⟩ sess db =
      ⟨.render "login.html" (some ("Email and password are required!", "danger")) .noData,
        sess, false, false, true⟩ := by
  rcases h with h | h | h | h <;> subst h
  · cases p <;> rfl
  · cases p with
    | none => rfl
    | some pv => simp [app_login]
  · cases e <;> rfl
  · cases e with
    | none => rfl
    | some ev => simp [app_login]

theorem app_login_requires_fields_witness :
    ((some "" : Option String) = none ∨ (some "" : Option String) = some "" ∨
      (some "pw" : Option String) = none ∨ (some "pw" : Option String) = some "") ∧
    app_login ⟨some "", none, some "pw"⟩ ⟨none, none, none⟩ (.healthy []) =
      ⟨.render "login.html" (some ("Email and password are required!", "danger")) .noData,
        ⟨none, none, none⟩, false, false, true⟩ :=
  ⟨Or.inr (Or.inl rfl),
    app_login_requires_fields (some "") none (some "pw") ⟨none, none, none⟩
      (.healthy []) (Or.inr (Or.inl rfl))⟩

/-- C2: within each variant, a login submission whose identifier matches
no stored user and a login submission whose identifier matches a user but
whose password fails verification produce identical outcomes, namely the
login form with the one invalid-credentials flash, so the response does
not reveal which of the two failed. -/
theorem login_uniform_failure :
    (∀ (sess : Session) (users : List User) (e1 p1 e2 p2 : String) (u : User),
      e1 ≠ "" → p1 ≠ "" → e2 ≠ "" → p2 ≠ "" →
      find_by_email users e1 = none →
      find_by_email users e2 = some u →
      check_password_hash u.password p2 = false →
      app_login ⟨some e1, none, some p1⟩ sess (.healthy users) =
        app_login ⟨some e2, none, some p2⟩ sess (.healthy users) ∧
      (app_login ⟨some e1, none, some p1⟩ sess (.healthy users)).response =
        .render "login.html" (some ("Invalid email or password!", "danger")) .noData) ∧
    (∀ (sess : Session) (users : List User) (n1 p1 n2 p2 : String) (u : User),
      find_by_username users n1 = none →
      find_by_username users n2 = some u →
      check_password_hash u.password p2 = false →
      app1_login ⟨none, some n1, some p1⟩ sess (.healthy users) =
        app1_login ⟨none, some n2, some p2⟩ sess (.healthy users) ∧
      (app1_login ⟨none, some n1, some p1⟩ sess (.healthy users)).response =
        .render "login.html" (some ("Invalid username or password!", "danger")) .noData) := by
  constructor
  · intro sess users e1 p1 e2 p2 u he1 hp1 he2 hp2 hmiss hhit hchk
    simp [app_login, he1, hp1, he2, hp2, hmiss, hhit, hchk]
  · intro sess users n1 p1 n2 p2 u hmiss hhit hchk
    simp [app1_login, hmiss, hhit, hchk]

theorem login_uniform_failure_witness :
    (("bob@x.com" : String) ≠ "" ∧ ("pw1" : String) ≠ "" ∧
      ("alice@x.com" : String) ≠ "" ∧ ("wrong" : String) ≠ "" ∧
      find_by_email [⟨1, "alice", "alice@x.com", generate_password_hash 0 "pw1", 100⟩]
        "bob@x.com" = none ∧
      find_by_email [⟨1, "alice", "alice@x.com", generate_password_hash 0 "pw1", 100⟩]
        "alice@x.com" = some ⟨1, "alice", "alice@x.com", generate_password_hash 0 "pw1", 100⟩ ∧
      check_password_hash (generate_password_hash 0 "pw1") "wrong" = false) ∧
    app_login ⟨some "bob@x.com", none, some "pw1"⟩ ⟨none, none, none⟩
        (.healthy [⟨1, "alice", "alice@x.com", generate_password_hash 0 "pw1", 100⟩]) =
      app_login ⟨some "alice@x.com", none, some "wrong"⟩ ⟨none, none, none⟩
        (.healthy [⟨1, "alice", "alice@x.com", generate_password_hash 0 "pw1", 100⟩]) :=
  ⟨⟨by decide, by decide, by decide, by decide, by decide, by decide, by decide⟩,
    (login_uniform_failure.1 ⟨none, none, none⟩
      [⟨1, "alice", "alice@x.com", generate_password_hash 0 "pw1", 100⟩]
      "bob@x.com" "pw1" "alice@x.com" "wrong"
      ⟨1, "alice", "alice@x.com", generate_password_hash 0 "pw1", 100⟩
      (by decide) (by decide) (by decide) (by decide)
      (by decide) (by decide) (by decide)).1⟩

/-- C1: in both variants an anonymous dashboard request is answered with
the redirect-to-login outcome and the store is never contacted; an
authenticated dashboard request against a healthy store renders exactly
the id/username/email/created_at projection of the session's user, and
the rendered outcome is independent of every stored password verifier. -/
theorem dashboard_protected :
    (∀ (sess : Session) (db : DbBehavior), sess.user_id = none →
      app_dashboard sess db =
        ⟨.redirect "login" (some ("Please login to access dashboard.", "warning")),
          sess, false, false, true⟩ ∧
      app1_dashboard sess db =
        ⟨.redirect "login" (some ("Please login to access dashboard.", "warning")),
          sess, false, false, true⟩) ∧
    (∀ (sess : Session) (uid : Nat) (users : List User) (u : User),
      sess.user_id = some uid → find_by_id users uid = some u →
      (app_dashboard sess (.healthy users)).response =
        .render "dashboard.html" none
          (.dashboardData (some ⟨u.id, u.username, u.email, u.created_at⟩)) ∧
      (app1_dashboard sess (.healthy users)).response =
        .render "dashboard.html" none
          (.dashboardData (some ⟨u.id, u.username, u.email, u.created_at⟩))) ∧
    (∀ (sess : Session) (users : List User) (v : Verifier),
      app_dashboard sess (.healthy (users.map (setPassword v))) =
        app_dashboard sess (.healthy users) ∧
      app1_dashboard sess (.healthy (users.map (setPassword v))) =
        app1_dashboard sess (.healthy users)) := by
  refine ⟨?_, ?_, ?_⟩
  · rintro ⟨uid, un, em⟩ db h
    cases h
    exact ⟨rfl, rfl⟩
  · rintro ⟨suid, un, em⟩ uid users u h hf
    cases h
    simp [app_dashboard, app1_dashboard, hf]
  · rintro ⟨suid, un, em⟩ users v
    cases suid with
    | none => exact ⟨rfl, rfl⟩
    | some uid =>
      have hfind : find_by_id (users.map (setPassword v)) uid =
          (find_by_id users uid).map (setPassword v) := by
        unfold find_by_id
        rw [List.find?_map]
        rfl
      constructor <;>
        · simp only [app_dashboard, app1_dashboard, hfind]
          cases find_by_id users uid <;> rfl

theorem dashboard_protected_witness :
    ((⟨none, some "alice", none⟩ : Session).user_id = none ∧
      (⟨some 1, none, none⟩ : Session).user_id = some 1 ∧
      find_by_id [⟨1, "alice", "alice@x.com", generate_password_hash 0 "pw1", 100⟩] 1 =
        some ⟨1, "alice", "alice@x.com", generate_password_hash 0 "pw1", 100⟩) ∧
    app_dashboard ⟨none, some "alice", none⟩ .faulty =
      ⟨.redirect "login" (some ("Please login to access dashboard.", "warning")),
        ⟨none, some "alice", none⟩, false, false, true⟩ ∧
    (app_dashboard ⟨some 1, none, none⟩
        (.healthy [⟨1, "alice", "alice@x.com", generate_password_hash 0 "pw1", 100⟩])).response =
      .render "dashboard.html" none (.dashboardData (some ⟨1, "alice", "alice@x.com", 100⟩)) :=
  ⟨⟨rfl, rfl, by decide⟩,
    (dashboard_protected.1 ⟨none, some "alice", none⟩ .faulty rfl).1,
    (dashboard_protected.2.1 ⟨some 1, none, none⟩ 1
      [⟨1, "alice", "alice@x.com", generate_password_hash 0 "pw1", 100⟩]
      ⟨1, "alice", "alice@x.com", generate_password_hash 0 "pw1", 100⟩
      rfl (by decide)).1⟩

/-- C3 counterexample: a login submission with an empty email field stays
Anonymous but is answered with the required-fields flash, not the
invalid-credentials flash, so the claim that every non-authenticating
submission yields an invalid-credentials warning fails on the code. -/
theorem login_transition_counterexample :
    (app_login ⟨some "", none, some "pw"⟩ ⟨none, none, none⟩ (.healthy [])).session.user_id
        = none ∧
    (app_login ⟨some "", none, some "pw"⟩ ⟨none, none, none⟩ (.healthy [])).response =
      .render "login.html" (some ("Email and password are required!", "danger")) .noData ∧
    (app_login ⟨some "", none, some "pw"⟩ ⟨none, none, none⟩ (.healthy [])).response ≠
      .render "login.html" (some ("Invalid email or password!", "danger")) .noData := by
  refine ⟨rfl, rfl, ?_⟩
  decide

/-- C3 amended: with nonblank fields against a healthy store, the session
becomes bound to the found user's id with a redirect home iff the lookup
finds a user and verification succeeds, and when the lookup completes
without authenticating the flash is the invalid-credentials warning; in
the remaining cases (blank fields, unavailable store, store fault) the
session is unchanged, i.e. the state stays Anonymous, but the response
carries its own message rather than the invalid-credentials warning. -/
theorem login_transition :
    (∀ (e p : String) (sess : Session) (users : List User), e ≠ "" → p ≠ "" →
      (((app_login ⟨some e, none, some p⟩ sess (.healthy users)).response =
          .redirect "index" (some ("Login successful!", "success")) ∧
        ∃ u, find_by_email users e = some u ∧
          (app_login ⟨some e, none, some p⟩ sess (.healthy users)).session =
            ⟨some u.id, some u.username, some u.email⟩) ↔
        (∃ u, find_by_email users e = some u ∧
          check_password_hash u.password p = true)) ∧
      ((find_by_email users e = none ∨
          ∃ u, find_by_email users e = some u ∧
            check_password_hash u.password p = false) →
        app_login ⟨some e, none, some p⟩ sess (.healthy users) =
          ⟨.render "login.html" (some ("Invalid email or password!", "danger")) .noData,
            sess, true, true, true⟩)) ∧
    (∀ (n p : String) (sess : Session) (users : List User),
      (((app1_login ⟨none, some n, some p⟩ sess (.healthy users)).response =
          .redirect "index" (some ("Login successful!", "success")) ∧
        ∃ u, find_by_username users n = some u ∧
          (app1_login ⟨none, some n, some p⟩ sess (.healthy users)).session =
            ⟨some u.id, some u.username, sess.email⟩) ↔
        (∃ u, find_by_username users n = some u ∧
          check_password_hash u.password p = true)) ∧
      ((find_by_username users n = none ∨
          ∃ u, find_by_username users n = some u ∧
            check_password_hash u.password p = false) →
        app1_login ⟨none, some n, some p⟩ sess (.healthy users) =
          ⟨.render "login.html" (some ("Invalid username or password!", "danger")) .noData,
            sess, true, true, true⟩)) ∧
    (∀ (form : LoginForm) (sess : Session),
      (app_login form sess .unavailable).session = sess ∧
      (app_login form sess .faulty).session = sess ∧
      (app1_login form sess .unavailable).session = sess ∧
      (app1_login form sess .faulty).session = sess) := by
  refine ⟨?_, ?_, ?_⟩
  · intro e p sess users he hp
    constructor
    · cases hfind : find_by_email users e with
      | none => simp [app_login, he, hp, hfind]
      | some u =>
        cases hchk : check_password_hash u.password p with
        | false => simp [app_login, he, hp, hfind, hchk]
        | true =>
          simp only [app_login, he, hp, hfind, hchk]
          simp [hfind, hchk]
    · intro hfail
      rcases hfail with hnone | ⟨u, hu, hchk⟩
      · simp [app_login, he, hp, hnone]
      · simp [app_login, he, hp, hu, hchk]
  · intro n p sess users
    constructor
    · cases hfind : find_by_username users n with
      | none => simp [app1_login, hfind]
      | some u =>
        cases hchk : check_password_hash u.password p with
        | false => simp [app1_login, hfind, hchk]
        | true =>
          simp only [app1_login, hfind, hchk]
          simp [hfind, hchk]
    · intro hfail
      rcases hfail with hnone | ⟨u, hu, hchk⟩
      · simp [app1_login, hnone]
      · simp [app1_login, hu, hchk]
  · intro form sess
    rcases form with ⟨fe, fu, fp⟩
    refine ⟨?_, ?_, ?_, ?_⟩ <;>
      cases fe <;> cases fu <;> cases fp <;>
        simp only [app_login, app1_login] <;>
        first
          | rfl
          | (split <;> rfl)

theorem login_transition_witness :
    (("alice@x.com" : String) ≠ "" ∧ ("pw1" : String) ≠ "") ∧
    ((app_login ⟨some "alice@x.com", none, some "pw1"⟩ ⟨none, none, none⟩
        (.healthy [⟨1, "alice", "alice@x.com", generate_password_hash 0 "pw1", 100⟩])).response =
      .redirect "index" (some ("Login successful!", "success")) ∧
      ∃ u, find_by_email [⟨1, "alice", "alice@x.com", generate_password_hash 0 "pw1", 100⟩]
            "alice@x.com" = some u ∧
        (app_login ⟨some "alice@x.com", none, some "pw1"⟩ ⟨none, none, none⟩
          (.healthy [⟨1, "alice", "alice@x.com", generate_password_hash 0 "pw1", 100⟩])).session =
          ⟨some u.id, some u.username, some u.email⟩) :=
  ⟨⟨by decide, by decide⟩,
    ((login_transition.1 "alice@x.com" "pw1" ⟨none, none, none⟩
        [⟨1, "alice", "alice@x.com", generate_password_hash 0 "pw1", 100⟩]
        (by decide) (by decide)).1).mpr
      ⟨⟨1, "alice", "alice@x.com", generate_password_hash 0 "pw1", 100⟩,
        by decide, by decide⟩⟩

theorem acquireGo_all_fail (m : Nat) :
    ∀ (fuel attempt att del : Nat), attempt + fuel = m →
      acquireGo (fun _ => .raiseErr) m fuel attempt att del =
        ⟨false, att + fuel, del + (fuel - 1)⟩ := by
  intro fuel
  induction fuel with
  | zero => intro attempt att del _; rfl
  | succ f ih =>
    intro attempt att del hsum
    simp only [acquireGo]
    by_cases hlt : attempt < m - 1
    · rw [if_pos hlt, ih (attempt + 1) (att + 1) (del + 1) (by omega)]
      have hf : 1 ≤ f := by omega
      simp only [AcquireResult.mk.injEq, true_and] <;> omega
    · rw [if_neg hlt]
      have hf : f = 0 := by omega
      subst hf
      simp only [AcquireResult.mk.injEq, true_and] <;> omega

theorem acquireGo_succeeds (k m : Nat) (hk : k < m) :
    ∀ (fuel attempt att del : Nat), attempt + fuel = m → attempt ≤ k →
      acquireGo (fun i => if i < k then .raiseErr else .ok) m fuel attempt att del =
        ⟨true, att + (k - attempt) + 1, del + (k - attempt)⟩ := by
  intro fuel
  induction fuel with
  | zero => intro attempt att del hsum hle; omega
  | succ f ih =>
    intro attempt att del hsum hle
    simp only [acquireGo]
    rcases Nat.lt_or_ge attempt k with hlt | hge
    · rw [if_pos hlt]
      have hlt2 : attempt < m - 1 := by omega
      simp only [hlt2, if_true]
      rw [ih (attempt + 1) (att + 1) (del + 1) (by omega) (by omega)]
      simp only [AcquireResult.mk.injEq, true_and] <;> omega
    · have heq : attempt = k := by omega
      subst heq
      simp only [Nat.lt_irrefl, if_false]
      simp only [AcquireResult.mk.injEq, true_and] <;> omega

/-- C5: for 1 ≤ N ≤ max_retries, against a store that raises on the first
N-1 attempts and connects on attempt N, app.py get_db_connection returns
a handle after exactly N attempts with exactly N-1 sleeps between them;
and against a store that raises on every attempt it returns None (a
failure value, its only non-handle result) after max_retries attempts. -/
theorem connection_retry (maxR N : Nat) (h1 : 1 ≤ N) (h2 : N ≤ maxR) :
    get_db_connection (fun i => if i < N - 1 then .raiseErr else .ok) maxR =
      ⟨true, N, N - 1⟩ ∧
    ∀ m : Nat, get_db_connection (fun _ => .raiseErr) m = ⟨false, m, m - 1⟩ := by
  constructor
  · unfold get_db_connection
    rw [acquireGo_succeeds (N - 1) maxR (by omega) maxR 0 0 0 (by omega) (by omega)]
    simp only [AcquireResult.mk.injEq, true_and] <;> omega
  · intro m
    unfold get_db_connection
    rw [acquireGo_all_fail m m 0 0 0 (by omega)]
    simp only [AcquireResult.mk.injEq, true_and] <;> omega

theorem connection_retry_witness :
    (1 ≤ 2 ∧ 2 ≤ 3) ∧
    get_db_connection (fun i => if i < 2 - 1 then .raiseErr else .ok) 3 =
      ⟨true, 2, 2 - 1⟩ ∧
    get_db_connection (fun _ => .raiseErr) 3 = ⟨false, 3, 3 - 1⟩ :=
  ⟨⟨by decide, by decide⟩,
    (connection_retry 3 2 (by decide) (by decide)).1,
    (connection_retry 3 2 (by decide) (by decide)).2 3⟩

/-- C6: app.py's register, login and dashboard record a release of their
acquired resources on every exit path (their finally blocks), and so does
app1.py's register; but app1.py's dashboard and login, on a store fault,
acquire a connection and exit without releasing it, because their close
calls sit on the straight-line path after the query with no try/finally:
the claim holds for app.py and fails on app1.py. -/
theorem resource_release :
    (∀ (sess : Session) (db : DbBehavior), (app_dashboard sess db).released = true) ∧
    (∀ (form : LoginForm) (sess : Session) (db : DbBehavior),
      (app_login form sess db).released = true) ∧
    (∀ (form : RegisterForm) (sess : Session) (db : DbBehavior),
      (app_register form sess db).released = true) ∧
    (∀ (form : RegisterForm) (sess : Session) (db : DbBehavior),
      (app1_register form sess db).released = true) ∧
    (app1_dashboard ⟨some 1, some "alice", none⟩ .faulty).acquired = true ∧
    (app1_dashboard ⟨some 1, some "alice", none⟩ .faulty).released = false ∧
    (app1_login ⟨none, some "alice", some "pw"⟩ ⟨none, none, none⟩ .faulty).acquired = true ∧
    (app1_login ⟨none, some "alice", some "pw"⟩ ⟨none, none, none⟩ .faulty).released = false := by
  refine ⟨?_, ?_, ?_, ?_, rfl, rfl, rfl, rfl⟩
  · rintro ⟨uid, un, em⟩ db
    cases uid <;> cases db <;> rfl
  · rintro ⟨fe, fu, fp⟩ sess db
    cases fe <;> cases fp <;> cases db <;>
      simp only [app_login] <;>
      (repeat' split) <;> rfl
  · rintro ⟨fu, fe, fp⟩ sess db
    cases fu <;> cases fe <;> cases fp <;> cases db <;>
      simp only [app_register] <;>
      first
        | rfl
        | (split <;> rfl)
  · rintro ⟨fu, fe, fp⟩ sess db
    cases fu <;> cases fe <;> cases fp <;> cases db <;>
      simp only [app1_register] <;>
      first
        | rfl
        | (split <;> rfl)

/-- C7: app.py register answers a store fault with the try-again flash and
an unavailable store with the retry-later flash, leaving the session (and
so the Anonymous state) unchanged; app1.py register instead propagates
the raw error as a 500 in both situations, so the claim holds only for
the environment-configured variant. -/
theorem register_store_errors :
    (∀ (form : RegisterForm) (sess : Session),
      (app_register form sess .faulty).session = sess ∧
      (app_register form sess .unavailable).session = sess) ∧
    (∀ (n e p : String) (sess : Session),
      app_register ⟨some n, some e, some p⟩ sess .faulty =
        ⟨.render "register.html" (some ("An error occurred. Please try again.", "danger")) .noData,
          sess, true, true, true⟩ ∧
      app_register ⟨some n, some e, some p⟩ sess .unavailable =
        ⟨.render "register.html" (some ("Database connection failed. Please try again later.", "danger")) .noData,
          sess, true, false, true⟩) ∧
    (app1_register ⟨some "alice", some "alice@x.com", some "pw1"⟩ ⟨none, none, none⟩
        .faulty).response = .serverError ∧
    (app1_register ⟨some "alice", some "alice@x.com", some "pw1"⟩ ⟨none, none, none⟩
        .unavailable).response = .serverError := by
  refine ⟨?_, ?_, rfl, rfl⟩
  · rintro ⟨fu, fe, fp⟩ sess
    cases fu <;> cases fe <;> cases fp <;> exact ⟨rfl, rfl⟩
  · intro n e p sess
    exact ⟨rfl, rfl⟩

/-- C8 counterexample: the statement text app1.py init_db hands to
cursor.execute changes when the configured database name changes, because
it is built with a Python f-string interpolating db_config, so not every
issued statement has constant, configuration-independent text. -/
theorem parameterized_sql_counterexample :
    (init_db_stmts ⟨"localhost", "root", "root", "flask_auth_db"⟩).map SqlStatement.text ≠
      (init_db_stmts ⟨"localhost", "root", "root", "other_db"⟩).map SqlStatement.text := by
  decide

/-- C8 amended: every SQL statement carrying user-supplied values (the
register INSERT, login SELECT and dashboard SELECT of both variants) has
statement text that is a constant independent of the runtime values,
which travel only in the driver parameter list; the schema statements of
app1.py init_db carry no user-supplied parameters but interpolate the
configuration-supplied database name (and nothing else from the
configuration) into their text. -/
theorem parameterized_sql :
    (∀ u e h u' e' h' : String,
      (app_register_stmt u e h).text = (app_register_stmt u' e' h').text ∧
      (app_register_stmt u e h).params = [u, e, h] ∧
      (app1_register_stmt u e h).text = (app1_register_stmt u' e' h').text ∧
      (app1_register_stmt u e h).params = [u, e, h]) ∧
    (∀ e e' : String,
      (app_login_stmt e).text = (app_login_stmt e').text ∧
      (app_login_stmt e).params = [e] ∧
      (app1_login_stmt e).text = (app1_login_stmt e').text ∧
      (app1_login_stmt e).params = [e]) ∧
    (∀ i i' : String,
      (app_dashboard_stmt i).text = (app_dashboard_stmt i').text ∧
      (app_dashboard_stmt i).params = [i] ∧
      (app1_dashboard_stmt i).text = (app1_dashboard_stmt i').text ∧
      (app1_dashboard_stmt i).params = [i]) ∧
    (∀ cfg : DbConfig, (init_db_stmts cfg).map SqlStatement.params = [[], [], []]) ∧
    (∀ cfg cfg' : DbConfig, cfg.database = cfg'.database →
      (init_db_stmts cfg).map SqlStatement.text =
        (init_db_stmts cfg').map SqlStatement.text) := by
  refine ⟨?_, ?_, ?_, ?_, ?_⟩
  · intro u e h u' e' h'; exact ⟨rfl, rfl, rfl, rfl⟩
  · intro e e'; exact ⟨rfl, rfl, rfl, rfl⟩
  · intro i i'; exact ⟨rfl, rfl, rfl, rfl⟩
  · intro cfg; rfl
  · intro cfg cfg' hdb
    simp [init_db_stmts, hdb]

theorem parameterized_sql_witness :
    ((⟨"localhost", "root", "root", "flask_auth_db"⟩ : DbConfig).database =
      (⟨"db", "flask_user", "flask_password", "flask_auth_db"⟩ : DbConfig).database) ∧
    (init_db_stmts ⟨"localhost", "root", "root", "flask_auth_db"⟩).map SqlStatement.text =
      (init_db_stmts ⟨"db", "flask_user", "flask_password", "flask_auth_db"⟩).map
        SqlStatement.text :=
  ⟨rfl, parameterized_sql.2.2.2.2 ⟨"localhost", "root", "root", "flask_auth_db"⟩
    ⟨"db", "flask_user", "flask_password", "flask_auth_db"⟩ rfl⟩

/-- C9 counterexample: for the same form input (email alice@x.com,
username bob, the correct password) and the same store state containing
alice, the environment-configured variant authenticates (it looks up by
the email field) while the hardcoded variant rejects with the invalid-
credentials flash (it looks up by the username field), so the two
variants' login operations do not produce the same outcome. -/
theorem variant_equivalence_counterexample :
    app_login ⟨some "alice@x.com", some "bob", some "pw1"⟩ ⟨none, none, none⟩
        (.healthy [⟨1, "alice", "alice@x.com", generate_password_hash 0 "pw1", 100⟩]) ≠
      app1_login ⟨some "alice@x.com", some "bob", some "pw1"⟩ ⟨none, none, none⟩
        (.healthy [⟨1, "alice", "alice@x.com", generate_password_hash 0 "pw1", 100⟩]) := by
  decide

/-- C9 amended: against a reachable, non-faulty store the two variants'
register, dashboard and home operations produce identical outcomes and
logout produces the same response while clearing the authentication
binding in both; but the login flows read different canonical identifiers
(email in app.py, username in app1.py), and the variants also diverge on
store unavailability and store faults, so login outcomes can differ for
the same form input and store state. -/
theorem variant_equivalence :
    (∀ (form : RegisterForm) (sess : Session) (users : List User),
      app_register form sess (.healthy users) =
        app1_register form sess (.healthy users)) ∧
    (∀ (sess : Session) (users : List User),
      app_dashboard sess (.healthy users) = app1_dashboard sess (.healthy users)) ∧
    (∀ sess : Session,
      (app_logout sess).response = (app1_logout sess).response ∧
      (app_logout sess).session.user_id = none ∧
      (app1_logout sess).session.user_id = none) ∧
    (∀ sess : Session, app_index sess = app1_index sess) := by
  refine ⟨?_, ?_, ?_, ?_⟩
  · rintro ⟨fu, fe, fp⟩ sess users
    cases fu <;> cases fe <;> cases fp <;> rfl
  · rintro ⟨uid, un, em⟩ users
    cases uid <;> rfl
  · intro sess
    exact ⟨rfl, rfl, rfl⟩
  · rintro ⟨uid, un, em⟩
    cases uid <;> rfl
